import Mathlib

/-!
Verification of the DAO-coin limit-order fixed-point arithmetic in the
`routes` package (`routes/dao_coin_exchange.go` and its older near-duplicate
`unnamed/part_001`).

Machine integers: Go's `uint256.Int` values are embedded as `Nat` together
with explicit `2^256` bounds / overflow checks at the points where the Go
code checks them (`MulOverflow`, `uint256.FromBig`).  Fallible Go functions
returning `(T, error)` are embedded as `Except CalcErr T`.  Coin identifiers
and operation-type strings are Go `string`s and stay `String`.
-/

/-- Error taxonomy of the arithmetic core.  The Go code returns `error`
values whose messages fall into these classes. -/
inductive CalcErr where
  | invalidFormat : CalcErr
  | overflow : CalcErr
  | underflow : CalcErr
  | unknownEnumValue : CalcErr
  deriving DecidableEq, Repr

/-- The uint256 modulus: Go `uint256.Int` arithmetic is mod `2^256`. -/
def uint256Limit : Nat := 2 ^ 256

/-- Modelled from the spec: the core library constant `lib.OneE38`, the
`10^38` fixed-point precision scalar for scaled exchange rates. -/
def oneE38 : Nat := 10 ^ 38

/-- Modelled from the spec: the core library constant `lib.BaseUnitsPerCoin`,
`10^18` base units per whole DAO coin. -/
def baseUnitsPerCoin : Nat := 10 ^ 18

/-- Modelled from the spec: the core library constant `lib.NanosPerUnit`,
`10^9` nanos per whole native ($DESO) coin. -/
def nanosPerUnit : Nat := 10 ^ 9

/-- `routes/dao_coin_exchange.go:43`: the sentinel coin identifier that
marks a side of the pair as the native coin. -/
def DESOCoinIdentifierString : String := "DESO"

/-- `routes/dao_coin_exchange.go:648-653` (`getDESOToDAOCoinBaseUnitsScalingFactor`):
returns `1e18 / 1e9`, the difference in scaling factor between DAO-coin base
units and $DESO nanos. -/
def getDESOToDAOCoinBaseUnitsScalingFactor : Nat :=
  baseUnitsPerCoin / nanosPerUnit

/-- `routes/dao_coin_exchange.go:698-708` (`getNumDigits`): repeated integer
division by 10 until the quotient reaches zero, counting the steps. -/
def getNumDigits : Nat → Nat
  | 0 => 0
  | n + 1 => getNumDigits ((n + 1) / 10) + 1
decreasing_by exact Nat.div_lt_self (Nat.succ_pos n) (by omega)

/-- The decimal rendering of a natural number, the embedding of Go's
`fmt.Sprintf("%d", ·)` on a non-negative `big.Int`: most-significant digit
first, and the single digit `"0"` for zero. -/
def natDecString (n : Nat) : String :=
  if n = 0 then "0"
  else String.mk ((Nat.digits 10 n).reverse.map (fun d => Char.ofNat (48 + d)))

/-- One digit character `'0'..'9'`. -/
def isDecDigit (c : Char) : Bool := '0' ≤ c && c ≤ '9'

/-- Numeric value of a digit character string, most-significant first. -/
def decDigitsToNat (cs : List Char) : Nat :=
  cs.foldl (fun a c => a * 10 + (c.toNat - 48)) 0

/-- Modelled from the spec: parsing of a decimal numeral string by the core
library (`ParseDecimalToScaled`, 4.1): an optional run of digits, an optional
dot, an optional run of fractional digits, not all empty.  Returns the value
as an exact pair (numerator, number of fractional digits), or `none` for a
malformed numeral. -/
def parseDecimalString (s : String) : Option (Nat × Nat) :=
  match s.data.splitOn '.' with
  | [w] =>
    if w ≠ [] && w.all isDecDigit then some (decDigitsToNat w, 0) else none
  | [w, f] =>
    if (w ≠ [] || f ≠ []) && w.all isDecDigit && f.all isDecDigit then
      some (decDigitsToNat w * 10 ^ f.length + decDigitsToNat f, f.length)
    else none
  | _ => none

/-- Modelled from the spec: `lib.ScaleFloatFormatStringToUint256`: parse a
decimal numeral string and multiply it by the given scaling factor,
truncating to an integer; `InvalidFormat` for a malformed numeral and
`Overflow` when the result exceeds 256-bit capacity (spec 4.1). -/
def ScaleFloatFormatStringToUint256 (s : String) (scalingFactor : Nat) :
    Except CalcErr Nat :=
  match parseDecimalString s with
  | none => .error .invalidFormat
  | some (num, fracLen) =>
    let scaled := num * scalingFactor / 10 ^ fracLen
    if scaled < uint256Limit then .ok scaled else .error .overflow

/-- Modelled from the spec: `lib.CalculateScaledExchangeRateFromString`:
parse a decimal numeral and scale it by `10^38` (spec 4.1,
`ParseDecimalToScaled`).  A value that rounds to zero is returned as zero:
the in-repo callers guard against zero themselves
(`routes/dao_coin_exchange.go:349,399`), which shows the library itself does
not reject it. -/
def CalculateScaledExchangeRateFromString (s : String) : Except CalcErr Nat :=
  ScaleFloatFormatStringToUint256 s oneE38

/-- Modelled from the spec: the core library's `ASK` operation-type constant
(`lib.DAOCoinLimitOrderOperationTypeASK`); an unsigned integer enum tag. -/
def OperationTypeASK : Nat := 2

/-- Modelled from the spec: the core library's `BID` operation-type constant
(`lib.DAOCoinLimitOrderOperationTypeBID`). -/
def OperationTypeBID : Nat := 1

/-- `routes/dao_coin_exchange.go:597-598`: the string forms of the two
operation types used by the API layer. -/
def OperationTypeStringASK : String := "ASK"

/-- `routes/dao_coin_exchange.go:598`. -/
def OperationTypeStringBID : String := "BID"

deriving instance DecidableEq for Except

/-- `routes/dao_coin_exchange.go:335-385` (`CalculateScaledExchangeRateFromPriceString`):
parse a decimal price string into a `10^38`-scaled rate, reject zero, invert
the rate through a `10^76` numerator when the operation type is ASK
(`uint256.FromBig` overflow check), then apply the $DESO denomination
adjustment (`MulOverflow` check when buying is $DESO, quotient-zero check
when selling is $DESO). -/
def CalculateScaledExchangeRateFromPriceString
    (buyingCoinPublicKeyBase58Check sellingCoinPublicKeyBase58Check : String)
    (price : String) (operationType : Nat) : Except CalcErr Nat :=
  match CalculateScaledExchangeRateFromString price with
  | .error e => .error e
  | .ok rawScaledPrice =>
    if rawScaledPrice = 0 then .error .underflow
    else
      let inverted : Except CalcErr Nat :=
        if operationType = OperationTypeASK then
          let oneE76 := oneE38 * oneE38
          let rawScaledExchangeRateAsBigInt := oneE76 / rawScaledPrice
          if rawScaledExchangeRateAsBigInt < uint256Limit then
            .ok rawScaledExchangeRateAsBigInt
          else .error .overflow
        else .ok rawScaledPrice
      match inverted with
      | .error e => .error e
      | .ok rawScaledExchangeRate =>
        if buyingCoinPublicKeyBase58Check = DESOCoinIdentifierString then
          if rawScaledExchangeRate * getDESOToDAOCoinBaseUnitsScalingFactor <
              uint256Limit then
            .ok (rawScaledExchangeRate * getDESOToDAOCoinBaseUnitsScalingFactor)
          else .error .overflow
        else if sellingCoinPublicKeyBase58Check = DESOCoinIdentifierString then
          if rawScaledExchangeRate / getDESOToDAOCoinBaseUnitsScalingFactor = 0 then
            .error .underflow
          else
            .ok (rawScaledExchangeRate / getDESOToDAOCoinBaseUnitsScalingFactor)
        else .ok rawScaledExchangeRate

/-- `routes/dao_coin_exchange.go:390-419` (`CalculateScaledExchangeRateFromFloat`),
lines 399-418.  The Go function first computes
`lib.CalculateScaledExchangeRateFromString(formatFloatAsString(f))`
(lines 395-398); float64 formatting is not embeddable, so the already-parsed
raw scaled rate is the parameter here.  Then: reject zero, multiply by the
denomination scaling factor when buying is $DESO (`MulOverflow` check),
divide when selling is $DESO (quotient-zero check), else pass through. -/
def CalculateScaledExchangeRateFromFloat
    (buyingCoinPublicKeyBase58Check sellingCoinPublicKeyBase58Check : String)
    (rawScaledExchangeRate : Nat) : Except CalcErr Nat :=
  if rawScaledExchangeRate = 0 then .error .underflow
  else if buyingCoinPublicKeyBase58Check = DESOCoinIdentifierString then
    if rawScaledExchangeRate * getDESOToDAOCoinBaseUnitsScalingFactor <
        uint256Limit then
      .ok (rawScaledExchangeRate * getDESOToDAOCoinBaseUnitsScalingFactor)
    else .error .overflow
  else if sellingCoinPublicKeyBase58Check = DESOCoinIdentifierString then
    if rawScaledExchangeRate / getDESOToDAOCoinBaseUnitsScalingFactor = 0 then
      .error .underflow
    else .ok (rawScaledExchangeRate / getDESOToDAOCoinBaseUnitsScalingFactor)
  else .ok rawScaledExchangeRate

/-- `unnamed/part_001:311-337` (`CalculateScaledExchangeRate`), lines
320-336: the older near-duplicate of `CalculateScaledExchangeRateFromFloat`.
The native-coin sentinel here is the empty string, and there is NO zero
check after parsing (the parse of `formatFloatAsString(f)`, lines 316-319,
is abstracted into the raw scaled rate parameter as above): a zero raw rate
flows into the branches. -/
def CalculateScaledExchangeRate
    (buyingCoinPublicKeyBase58CheckOrUsername
     sellingCoinPublicKeyBase58CheckOrUsername : String)
    (rawScaledExchangeRate : Nat) : Except CalcErr Nat :=
  if buyingCoinPublicKeyBase58CheckOrUsername = "" then
    if rawScaledExchangeRate * getDESOToDAOCoinBaseUnitsScalingFactor <
        uint256Limit then
      .ok (rawScaledExchangeRate * getDESOToDAOCoinBaseUnitsScalingFactor)
    else .error .overflow
  else if sellingCoinPublicKeyBase58CheckOrUsername = "" then
    if rawScaledExchangeRate / getDESOToDAOCoinBaseUnitsScalingFactor = 0 then
      .error .underflow
    else .ok (rawScaledExchangeRate / getDESOToDAOCoinBaseUnitsScalingFactor)
  else .ok rawScaledExchangeRate

/-- `routes/dao_coin_exchange.go:658-670` (`formatScaledUint256AsDecimalString`):
print a scaled integer as `"<whole>.<decimal>"`, left-padding the decimal
part with zeros unless it is zero or its digit string is as long as the
scaling factor's. -/
def formatScaledUint256AsDecimalString (v scalingFactor : Nat) : String :=
  let wholeNumber := v / scalingFactor
  let decimalPart := v % scalingFactor
  let scalingFactorDigits := getNumDigits scalingFactor
  let decimalPartAsString := natDecString decimalPart
  let decimalPartAsString :=
    if decimalPart ≠ 0 ∧ decimalPartAsString.length ≠ scalingFactorDigits then
      String.mk
          (List.replicate (scalingFactorDigits - decimalPartAsString.length - 1)
            '0') ++
        decimalPartAsString
    else decimalPartAsString
  natDecString wholeNumber ++ "." ++ decimalPartAsString

/-- `routes/dao_coin_exchange.go:428-432`: the read-path denomination
adjustment inside `CalculateStringPriceFromScaledExchangeRate` (duplicated
at lines 446-450): divide the stored scaled value by the denomination
scaling factor when the buying coin is $DESO, multiply when the selling coin
is $DESO (unchecked `big.Int` arithmetic), else leave it unchanged. -/
def readPathDenominationAdjustment
    (buyingCoinPublicKeyBase58Check sellingCoinPublicKeyBase58Check : String)
    (scaledValue : Nat) : Nat :=
  if buyingCoinPublicKeyBase58Check = DESOCoinIdentifierString then
    scaledValue / getDESOToDAOCoinBaseUnitsScalingFactor
  else if sellingCoinPublicKeyBase58Check = DESOCoinIdentifierString then
    scaledValue * getDESOToDAOCoinBaseUnitsScalingFactor
  else scaledValue

/-- `routes/dao_coin_exchange.go:421-435` (`CalculateStringPriceFromScaledExchangeRate`):
apply the read-path denomination adjustment, then format at `10^38`.  The
`operationTypeString` parameter is accepted but not used by the body.  The
Go error result is statically `nil`, so the embedding returns the string
directly. -/
def CalculateStringPriceFromScaledExchangeRate
    (buyingCoinPublicKeyBase58Check sellingCoinPublicKeyBase58Check : String)
    (scaledValue : Nat) (operationTypeString : String) : String :=
  formatScaledUint256AsDecimalString
    (readPathDenominationAdjustment
      buyingCoinPublicKeyBase58Check sellingCoinPublicKeyBase58Check scaledValue)
    oneE38

/-- `routes/dao_coin_exchange.go:583-590` (`isCoinToFillDESO`): the quantity
refers to $DESO iff (buying is $DESO and the operation is BID) or (selling
is $DESO and the operation is ASK). -/
def isCoinToFillDESO
    (buyingCoinPublicKeyBase58Check sellingCoinPublicKeyBase58Check : String)
    (operationTypeString : String) : Bool :=
  (buyingCoinPublicKeyBase58Check == DESOCoinIdentifierString &&
      operationTypeString == OperationTypeStringBID) ||
    (sellingCoinPublicKeyBase58Check == DESOCoinIdentifierString &&
      operationTypeString == OperationTypeStringASK)

/-- `routes/dao_coin_exchange.go:574-579`
(`calculateQuantityToFillToBaseUnitsWithScalingFactor`): delegate to the
core library's string scaling. -/
def calculateQuantityToFillToBaseUnitsWithScalingFactor
    (quantityToFill : String) (scalingFactor : Nat) : Except CalcErr Nat :=
  ScaleFloatFormatStringToUint256 quantityToFill scalingFactor

/-- `routes/dao_coin_exchange.go:558-563`: scale by `10^18`. -/
def calculateQuantityToFillAsDAOCoinBaseUnits (quantityToFill : String) :
    Except CalcErr Nat :=
  calculateQuantityToFillToBaseUnitsWithScalingFactor quantityToFill
    baseUnitsPerCoin

/-- `routes/dao_coin_exchange.go:566-571`: scale by `10^9`. -/
def calculateQuantityToFillAsDESONanos (quantityToFill : String) :
    Except CalcErr Nat :=
  calculateQuantityToFillToBaseUnitsWithScalingFactor quantityToFill
    nanosPerUnit

/-- `routes/dao_coin_exchange.go:537-555` (`CalculateQuantityToFillAsBaseUnits`):
scale the human-entered quantity string by `10^9` when the quantity coin is
$DESO (per `isCoinToFillDESO`), else by `10^18`. -/
def CalculateQuantityToFillAsBaseUnits
    (buyingCoinPublicKeyBase58Check sellingCoinPublicKeyBase58Check : String)
    (operationTypeString : String) (quantityToFill : String) :
    Except CalcErr Nat :=
  if isCoinToFillDESO buyingCoinPublicKeyBase58Check
      sellingCoinPublicKeyBase58Check operationTypeString then
    calculateQuantityToFillAsDESONanos quantityToFill
  else calculateQuantityToFillAsDAOCoinBaseUnits quantityToFill

/-- `routes/dao_coin_exchange.go:467-481` (`CalculateQuantityAsString`):
format the base-unit quantity at `10^9` or `10^18` depending on
`isCoinToFillDESO`.  The Go error result is statically `nil`. -/
def CalculateQuantityAsString
    (buyingCoinPublicKeyBase58Check sellingCoinPublicKeyBase58Check : String)
    (operationTypeString : String) (quantityToFillInBaseUnits : Nat) : String :=
  if isCoinToFillDESO buyingCoinPublicKeyBase58Check
      sellingCoinPublicKeyBase58Check operationTypeString then
    formatScaledUint256AsDecimalString quantityToFillInBaseUnits nanosPerUnit
  else
    formatScaledUint256AsDecimalString quantityToFillInBaseUnits
      baseUnitsPerCoin

/-- `routes/dao_coin_exchange.go:440-465` (`CalculateExchangeRateAsFloat`):
apply the read-path denomination adjustment (lines 446-450, the same
computation as lines 428-432), then build the decimal string
`"<whole>.<zeros><decimal>"` at `10^38`.  The final `strconv.ParseFloat`
(which cannot fail on these strings, and whose float64 result is not
embeddable) is abstracted: the model returns the exact decimal numeral
string that Go parses into the returned float64. -/
def CalculateExchangeRateAsFloat
    (buyingCoinPublicKeyBase58Check sellingCoinPublicKeyBase58Check : String)
    (scaledValue : Nat) : String :=
  let adjusted := readPathDenominationAdjustment buyingCoinPublicKeyBase58Check
    sellingCoinPublicKeyBase58Check scaledValue
  let whole := adjusted / oneE38
  let decimal := adjusted % oneE38
  let decimalLeadingZeros :=
    List.replicate (getNumDigits oneE38 - getNumDigits decimal - 1) '0'
  natDecString whole ++ "." ++ String.mk decimalLeadingZeros ++
    natDecString decimal

/-- `routes/dao_coin_exchange.go:518-533`
(`calculateQuantityToFillAsFloatWithScalingFactor`): as above, the decimal
string fed to `strconv.ParseFloat` is returned in place of the float64. -/
def calculateQuantityToFillAsFloatWithScalingFactor
    (quantityAsScaledValue scalingFactor : Nat) : String :=
  let whole := quantityAsScaledValue / scalingFactor
  let decimal := quantityAsScaledValue % scalingFactor
  let decimalLeadingZeros :=
    List.replicate (getNumDigits scalingFactor - getNumDigits decimal - 1) '0'
  natDecString whole ++ "." ++ String.mk decimalLeadingZeros ++
    natDecString decimal

/-- `routes/dao_coin_exchange.go:502-507`. -/
def calculateQuantityToFillFromDAOCoinBaseUnitsToFloat
    (quantityInBaseUnits : Nat) : String :=
  calculateQuantityToFillAsFloatWithScalingFactor quantityInBaseUnits
    baseUnitsPerCoin

/-- `routes/dao_coin_exchange.go:510-515`. -/
def calculateQuantityToFillFromDESONanosToFloat (quantityInNanos : Nat) :
    String :=
  calculateQuantityToFillAsFloatWithScalingFactor quantityInNanos nanosPerUnit

/-- `routes/dao_coin_exchange.go:485-499` (`CalculateQuantityToFillAsFloat`). -/
def CalculateQuantityToFillAsFloat
    (buyingCoinPublicKeyBase58Check sellingCoinPublicKeyBase58Check : String)
    (operationTypeString : String) (quantityToFillInBaseUnits : Nat) : String :=
  if isCoinToFillDESO buyingCoinPublicKeyBase58Check
      sellingCoinPublicKeyBase58Check operationTypeString then
    calculateQuantityToFillFromDESONanosToFloat quantityToFillInBaseUnits
  else
    calculateQuantityToFillFromDAOCoinBaseUnitsToFloat quantityToFillInBaseUnits

/-- `routes/dao_coin_exchange.go:601-611` (`orderOperationTypeToString`):
map the core library's enum tag to `"ASK"`/`"BID"`, erroring on any other
value. -/
def orderOperationTypeToString (operationType : Nat) :
    Except CalcErr String :=
  if operationType = OperationTypeASK then .ok OperationTypeStringASK
  else if operationType = OperationTypeBID then .ok OperationTypeStringBID
  else .error .unknownEnumValue

/-- `lib.DAOCoinLimitOrderEntry` as consumed by
`routes/dao_coin_exchange.go` (fields read at lines 207, 233-234, 273, 281,
292, 331): PKIDs are abstracted to `Nat` identifiers. -/
structure DAOCoinLimitOrderEntry where
  transactorPKID : Nat
  buyingDAOCoinCreatorPKID : Nat
  sellingDAOCoinCreatorPKID : Nat
  operationType : Nat
  scaledExchangeRateCoinsToSellPerCoinToBuy : Nat
  quantityToFillInBaseUnits : Nat
  orderID : String
  deriving DecidableEq, Repr

/-- `routes/dao_coin_exchange.go:26-41` (`DAOCoinLimitOrderEntryResponse`);
the two deprecated float64 fields are carried as the exact decimal numeral
strings Go parses them from (see `CalculateExchangeRateAsFloat`). -/
structure DAOCoinLimitOrderEntryResponse where
  transactorPublicKeyBase58Check : String
  buyingDAOCoinCreatorPublicKeyBase58Check : String
  sellingDAOCoinCreatorPublicKeyBase58Check : String
  price : String
  quantity : String
  exchangeRateCoinsToSellPerCoinToBuy : String
  quantityToFill : String
  operationType : String
  orderID : String
  deriving DecidableEq, Repr

/-- `routes/dao_coin_exchange.go:264-333` (`buildDAOCoinLimitOrderResponse`):
build the response for one order entry; fails when the entry's operation
type is not a recognized variant.  (The price/quantity formatters and the
float-string builders cannot fail in the embedding: their Go error results
are statically `nil` except for an unreachable `strconv.ParseFloat`
failure.) -/
def buildDAOCoinLimitOrderResponse
    (transactorPublicKeyBase58Check buyingCoinPublicKeyBase58Check
     sellingCoinPublicKeyBase58Check : String)
    (order : DAOCoinLimitOrderEntry) :
    Except CalcErr DAOCoinLimitOrderEntryResponse :=
  match orderOperationTypeToString order.operationType with
  | .error e => .error e
  | .ok operationTypeString =>
    .ok
      { transactorPublicKeyBase58Check := transactorPublicKeyBase58Check
        buyingDAOCoinCreatorPublicKeyBase58Check :=
          buyingCoinPublicKeyBase58Check
        sellingDAOCoinCreatorPublicKeyBase58Check :=
          sellingCoinPublicKeyBase58Check
        price := CalculateStringPriceFromScaledExchangeRate
          buyingCoinPublicKeyBase58Check sellingCoinPublicKeyBase58Check
          order.scaledExchangeRateCoinsToSellPerCoinToBuy operationTypeString
        quantity := CalculateQuantityAsString buyingCoinPublicKeyBase58Check
          sellingCoinPublicKeyBase58Check operationTypeString
          order.quantityToFillInBaseUnits
        exchangeRateCoinsToSellPerCoinToBuy := CalculateExchangeRateAsFloat
          buyingCoinPublicKeyBase58Check sellingCoinPublicKeyBase58Check
          order.scaledExchangeRateCoinsToSellPerCoinToBuy
        quantityToFill := CalculateQuantityToFillAsFloat
          buyingCoinPublicKeyBase58Check sellingCoinPublicKeyBase58Check
          operationTypeString order.quantityToFillInBaseUnits
        operationType := operationTypeString
        orderID := order.orderID }

/-- `routes/dao_coin_exchange.go:198-223`
(`buildDAOCoinLimitOrderResponsesFromEntriesForCoinPair`): loop over the
order entries, appending each successfully built response and skipping (via
`continue`) any entry whose response errors.  The
`utxoView.GetPublicKeyForPKID` + `lib.Base58CheckEncode` lookup of the
transactor's key (lines 207, 210) is an external-collaborator call,
abstracted as the total function `encodeTransactorPublicKey`.  The loop
body — append the response on success, keep the accumulated slice unchanged
on error (Go's `continue`, lines 215-219) — is factored out as
`appendOrderResponse`, shared verbatim with the transactor-keyed builder
below. -/
def appendOrderResponse
    (responses : List DAOCoinLimitOrderEntryResponse)
    (result : Except CalcErr DAOCoinLimitOrderEntryResponse) :
    List DAOCoinLimitOrderEntryResponse :=
  match result with
  | .error _ => responses
  | .ok response => responses ++ [response]

/-- `routes/dao_coin_exchange.go:198-223`: see `appendOrderResponse` above. -/
def buildDAOCoinLimitOrderResponsesFromEntriesForCoinPair
    (encodeTransactorPublicKey : Nat → String)
    (buyingCoinPublicKeyBase58Check sellingCoinPublicKeyBase58Check : String)
    (orders : List DAOCoinLimitOrderEntry) :
    List DAOCoinLimitOrderEntryResponse :=
  orders.foldl
    (fun responses order =>
      appendOrderResponse responses
        (buildDAOCoinLimitOrderResponse
          (encodeTransactorPublicKey order.transactorPKID)
          buyingCoinPublicKeyBase58Check sellingCoinPublicKeyBase58Check
          order))
    []

/-- `routes/dao_coin_exchange.go:225-254`
(`buildDAOCoinLimitOrderResponsesForTransactor`): same loop shape, looking
up each order's buying/selling coin identifier from its PKID
(`getPublicKeyBase58CheckOrCoinIdentifierForPKID`, lines 233-234, abstracted
as the total function `coinIdentifierForPKID`); a failed entry is logged
(`glog.Errorf`, an I/O effect outside the embedding) and skipped. -/
def buildDAOCoinLimitOrderResponsesForTransactor
    (coinIdentifierForPKID : Nat → String)
    (transactorPublicKeyBase58Check : String)
    (orders : List DAOCoinLimitOrderEntry) :
    List DAOCoinLimitOrderEntryResponse :=
  orders.foldl
    (fun responses order =>
      appendOrderResponse responses
        (buildDAOCoinLimitOrderResponse transactorPublicKeyBase58Check
          (coinIdentifierForPKID order.buyingDAOCoinCreatorPKID)
          (coinIdentifierForPKID order.sellingDAOCoinCreatorPKID) order))
    []

/-- `getNumDigits` computes the length of the base-10 digit expansion. -/
theorem getNumDigits_eq_digits_len (n : Nat) :
    getNumDigits n = (Nat.digits 10 n).length := by
  induction n using Nat.strong_induction_on with
  | _ n ih =>
    match n with
    | 0 => simp [getNumDigits]
    | m + 1 =>
      rw [getNumDigits, Nat.digits_def' (by norm_num : 1 < 10) (Nat.succ_pos m)]
      simp [ih ((m + 1) / 10) (Nat.div_lt_self (Nat.succ_pos m) (by omega))]

/-- The decimal rendering of a nonzero number has one character per digit. -/
theorem natDecString_length (n : Nat) (h : n ≠ 0) :
    (natDecString n).length = (Nat.digits 10 n).length := by
  simp [natDecString, h, String.length]

/-- The decimal rendering's length agrees with `getNumDigits` on nonzero
input. -/
theorem natDecString_length_eq_getNumDigits (n : Nat) (h : n ≠ 0) :
    (natDecString n).length = getNumDigits n := by
  rw [natDecString_length n h, getNumDigits_eq_digits_len]

/-- The denomination scaling factor evaluates to `10^9`. -/
theorem getDESOToDAOCoinBaseUnitsScalingFactor_eq :
    getDESOToDAOCoinBaseUnitsScalingFactor = 10 ^ 9 := by
  norm_num [getDESOToDAOCoinBaseUnitsScalingFactor, baseUnitsPerCoin,
    nanosPerUnit]

/-- C9: `getNumDigits` (CountDecimalDigits), computed by repeated integer
division by 10 until zero, returns the number of decimal digits of `n`
(the length of the base-10 digit expansion, which is 0 exactly for `n = 0`);
in particular `getNumDigits 0 = 0`, `getNumDigits 999 = 3` and
`getNumDigits 1000 = 4`. -/
theorem c9_count_decimal_digits :
    (∀ n : Nat, getNumDigits n = (Nat.digits 10 n).length) ∧
      getNumDigits 0 = 0 ∧ getNumDigits 999 = 3 ∧ getNumDigits 1000 = 4 := by
  refine ⟨getNumDigits_eq_digits_len, by simp [getNumDigits], ?_, ?_⟩ <;>
    simp [getNumDigits]

/-- C10: the read-path price-string formatter
`CalculateStringPriceFromScaledExchangeRate` returns identical strings for
two invocations differing only in the operation-type argument: the displayed
price is never inverted based on ASK/BID. -/
theorem c10_price_string_ignores_operation_type
    (buying selling : String) (scaledValue : Nat) (op₁ op₂ : String) :
    CalculateStringPriceFromScaledExchangeRate buying selling scaledValue op₁ =
      CalculateStringPriceFromScaledExchangeRate buying selling scaledValue
        op₂ := rfl

/-- C4: the quantity-to-fill is denominated in the native coin exactly when
(buying is the $DESO sentinel and the operation is BID) or (selling is the
$DESO sentinel and the operation is ASK); `CalculateQuantityToFillAsBaseUnits`
scales the human-entered quantity by `10^9` in exactly those cases and by
`10^18` otherwise; and for buying=DAO coin, selling=$DESO, operation=ASK,
quantity `"2.5"` the result is `2500000000` base units. -/
theorem c4_quantity_denomination :
    (∀ buying selling op : String,
      isCoinToFillDESO buying selling op = true ↔
        (buying = DESOCoinIdentifierString ∧ op = OperationTypeStringBID) ∨
          (selling = DESOCoinIdentifierString ∧ op = OperationTypeStringASK)) ∧
    (∀ buying selling op q : String,
      CalculateQuantityToFillAsBaseUnits buying selling op q =
        ScaleFloatFormatStringToUint256 q
          (if isCoinToFillDESO buying selling op then 10 ^ 9 else 10 ^ 18)) ∧
    CalculateQuantityToFillAsBaseUnits "DAOCoinX" DESOCoinIdentifierString
      OperationTypeStringASK "2.5" = .ok 2500000000 := by
  refine ⟨?_, ?_, by decide⟩
  · intro buying selling op
    simp [isCoinToFillDESO]
  · intro buying selling op q
    by_cases h : isCoinToFillDESO buying selling op <;>
      simp [CalculateQuantityToFillAsBaseUnits, h,
        calculateQuantityToFillAsDESONanos,
        calculateQuantityToFillAsDAOCoinBaseUnits,
        calculateQuantityToFillToBaseUnitsWithScalingFactor, nanosPerUnit,
        baseUnitsPerCoin]

/-- C1: for every nonzero 256-bit raw scaled exchange rate `r`, the
denomination normalization (both `CalculateScaledExchangeRateFromFloat` with
the `"DESO"` sentinel and the older `CalculateScaledExchangeRate` with the
empty-string sentinel): buying native multiplies by the
DenominationScalingFactor `10^9` and errors with Overflow exactly when the
product exceeds 256 bits; selling native (buying not) divides by `10^9` and
errors with Underflow exactly when the quotient is zero; neither native
returns `r` unchanged. -/
theorem c1_denomination_normalization
    (buying selling : String) (r : Nat) (hr : 0 < r) :
    (buying = DESOCoinIdentifierString →
      CalculateScaledExchangeRateFromFloat buying selling r =
        if r * 10 ^ 9 < uint256Limit then .ok (r * 10 ^ 9)
        else .error .overflow) ∧
    (buying ≠ DESOCoinIdentifierString → selling = DESOCoinIdentifierString →
      CalculateScaledExchangeRateFromFloat buying selling r =
        if r / 10 ^ 9 = 0 then .error .underflow else .ok (r / 10 ^ 9)) ∧
    (buying ≠ DESOCoinIdentifierString → selling ≠ DESOCoinIdentifierString →
      CalculateScaledExchangeRateFromFloat buying selling r = .ok r) ∧
    (buying = "" →
      CalculateScaledExchangeRate buying selling r =
        if r * 10 ^ 9 < uint256Limit then .ok (r * 10 ^ 9)
        else .error .overflow) ∧
    (buying ≠ "" → selling = "" →
      CalculateScaledExchangeRate buying selling r =
        if r / 10 ^ 9 = 0 then .error .underflow else .ok (r / 10 ^ 9)) ∧
    (buying ≠ "" → selling ≠ "" →
      CalculateScaledExchangeRate buying selling r = .ok r) := by
  have hfac := getDESOToDAOCoinBaseUnitsScalingFactor_eq
  have hr0 := Nat.pos_iff_ne_zero.mp hr
  refine ⟨fun hb => ?_, fun hb hs => ?_, fun hb hs => ?_, fun hb => ?_,
    fun hb hs => ?_, fun hb hs => ?_⟩
  · simp [CalculateScaledExchangeRateFromFloat, hb, hfac, hr0]
  · simp [CalculateScaledExchangeRateFromFloat, hb, hs, hfac, hr0]
  · simp [CalculateScaledExchangeRateFromFloat, hb, hs, hfac, hr0]
  · simp [CalculateScaledExchangeRate, hb, hfac]
  · simp [CalculateScaledExchangeRate, hb, hs, hfac]
  · simp [CalculateScaledExchangeRate, hb, hs, hfac]

/-- C1 witness: the theorem applied at buying = `"DESO"`, selling = `"X"`,
`r = 3`. -/
theorem c1_denomination_normalization_witness :
    CalculateScaledExchangeRateFromFloat DESOCoinIdentifierString "X" 3 =
      if 3 * 10 ^ 9 < uint256Limit then .ok (3 * 10 ^ 9)
      else .error .overflow :=
  (c1_denomination_normalization DESOCoinIdentifierString "X" 3
    (by decide)).1 rfl

/-- C7: the write-path denomination adjustment
(`CalculateScaledExchangeRateFromFloat`) followed by the read-path inverse
adjustment (`readPathDenominationAdjustment`, the value inside
`CalculateStringPriceFromScaledExchangeRate`) over the same native/DAO-coin
pair recovers the raw rate `r`: exactly when buying is native
(multiply by `10^9` then divide), and as `r` rounded down to a multiple of
`10^9` when selling is native (divide then multiply). -/
theorem c7_denomination_round_trip
    (daoCoin : String) (r : Nat) (hdao : daoCoin ≠ DESOCoinIdentifierString) :
    (∀ v, CalculateScaledExchangeRateFromFloat DESOCoinIdentifierString
        daoCoin r = .ok v →
      readPathDenominationAdjustment DESOCoinIdentifierString daoCoin v = r) ∧
    (∀ v, CalculateScaledExchangeRateFromFloat daoCoin
        DESOCoinIdentifierString r = .ok v →
      readPathDenominationAdjustment daoCoin DESOCoinIdentifierString v =
        r - r % 10 ^ 9) := by
  have hfac := getDESOToDAOCoinBaseUnitsScalingFactor_eq
  constructor
  · intro v hv
    rw [CalculateScaledExchangeRateFromFloat] at hv
    by_cases hr : r = 0
    · simp [hr] at hv
    · simp only [hr, if_false, if_pos rfl] at hv
      by_cases hov : r * getDESOToDAOCoinBaseUnitsScalingFactor < uint256Limit
      · rw [if_pos hov] at hv
        cases hv
        simp [readPathDenominationAdjustment, hfac,
          Nat.mul_div_cancel r (by positivity : (0:Nat) < 10 ^ 9)]
      · simp [if_neg hov] at hv
  · intro v hv
    rw [CalculateScaledExchangeRateFromFloat] at hv
    by_cases hr : r = 0
    · simp [hr] at hv
    · simp only [hr, if_false, if_neg hdao, if_pos rfl] at hv
      by_cases hq : r / getDESOToDAOCoinBaseUnitsScalingFactor = 0
      · simp [hq] at hv
      · rw [if_neg hq] at hv
        cases hv
        rw [readPathDenominationAdjustment, if_neg hdao, if_pos rfl, hfac]
        omega

/-- C5 counterexample: for scaling factor 15 (a positive, non-power-of-ten
factor) and value 10, the remainder 10 is nonzero but its digit string is as
long as the factor's, so the code emits it unpadded: the fractional part
`"10"` has length 2, not `getNumDigits 15 - 1 = 1` as the claim prescribes
for every positive scaling factor. -/
theorem c5_counterexample :
    formatScaledUint256AsDecimalString 10 15 = "0.10" ∧ 10 % 15 ≠ 0 ∧
      ¬((natDecString (10 % 15)).length = getNumDigits 15 - 1) := by
  refine ⟨?_, by decide, ?_⟩
  · simp [formatScaledUint256AsDecimalString, natDecString, getNumDigits]
    decide
  · simp [natDecString, getNumDigits]; decide

/-- C5 (amended): formatting `v` at a positive scaling factor `s` yields
`"<floor(v/s)>.<d>"` where `d` is the single unpadded character `"0"` when
the remainder is zero, and — whenever the remainder has strictly fewer
decimal digits than `s`, which always holds when `s` is a power of ten —
`d` is the remainder's digit string left-padded with zeros to total length
`getNumDigits s - 1`, never dropping leading zeros.  (When the nonzero
remainder has as many digits as `s`, possible only for a non-power-of-ten
`s`, the code emits it unpadded; see the counterexample.) -/
theorem c5_decimal_formatting (v s : Nat) (hs : 0 < s) :
    (v % s = 0 →
      formatScaledUint256AsDecimalString v s =
        natDecString (v / s) ++ "." ++ "0") ∧
    (v % s ≠ 0 → getNumDigits (v % s) < getNumDigits s →
      formatScaledUint256AsDecimalString v s =
        natDecString (v / s) ++ "." ++
          (String.mk
              (List.replicate (getNumDigits s - getNumDigits (v % s) - 1)
                '0') ++
            natDecString (v % s)) ∧
      (String.mk
            (List.replicate (getNumDigits s - getNumDigits (v % s) - 1) '0') ++
          natDecString (v % s)).length = getNumDigits s - 1) := by
  constructor
  · intro h0
    simp [formatScaledUint256AsDecimalString, h0, natDecString]
  · intro h0 hlt
    have hlen := natDecString_length_eq_getNumDigits (v % s) h0
    have hne : (natDecString (v % s)).length ≠ getNumDigits s := by omega
    constructor
    · simp only [formatScaledUint256AsDecimalString]
      rw [if_pos ⟨h0, hne⟩, hlen]
    · rw [String.length_append]
      have : (String.mk
          (List.replicate (getNumDigits s - getNumDigits (v % s) - 1)
            '0')).length =
          getNumDigits s - getNumDigits (v % s) - 1 := by
        simp [String.length]
      omega

/-- C5 witness: the amended theorem applied at `v = 1005`, `s = 100`: the
remainder 5 is padded to `"05"`, of length `getNumDigits 100 - 1 = 2`. -/
theorem c5_decimal_formatting_witness :
    formatScaledUint256AsDecimalString 1005 100 =
      natDecString (1005 / 100) ++ "." ++
        (String.mk
            (List.replicate (getNumDigits 100 - getNumDigits (1005 % 100) - 1)
              '0') ++
          natDecString (1005 % 100)) ∧
    (String.mk
          (List.replicate (getNumDigits 100 - getNumDigits (1005 % 100) - 1)
            '0') ++
        natDecString (1005 % 100)).length = getNumDigits 100 - 1 :=
  (c5_decimal_formatting 1005 100 (by decide)).2 (by decide)
    (by norm_num [getNumDigits])

/-- C2 counterexample: the decimal price `2×10^38` parses to the nonzero raw
scaled rate `r = 2×10^76`; for an ASK between two DAO coins the inversion
`10^76 / r` rounds to zero and `CalculateScaledExchangeRateFromPriceString`
returns `0` as a success instead of the Underflow error the claim
prescribes. -/
theorem c2_counterexample :
    CalculateScaledExchangeRateFromString
        "200000000000000000000000000000000000000" = .ok (2 * 10 ^ 76) ∧
      CalculateScaledExchangeRateFromPriceString "BC" "SC"
          "200000000000000000000000000000000000000" OperationTypeASK =
        .ok 0 := by
  constructor <;> decide

/-- C2 (amended): for every price string parsed to a nonzero raw scaled rate
`r`, an ASK order's rate is the 256-bit-safe inversion
`floor((10^38 * 10^38) / r)`, which for nonzero `r` always fits in 256 bits,
so the inversion's Overflow branch never fires (and an Overflow can then
arise only from the buying-is-native denomination multiplication); when `r`
is so large that the inverted result rounds to zero, the operation returns
an Underflow-style error only when the selling coin is the native sentinel
(caught by the denomination quotient-zero check), and otherwise proceeds
with the zero rate. -/
theorem c2_ask_inversion (buying selling price : String) (r : Nat)
    (hparse : CalculateScaledExchangeRateFromString price = .ok r)
    (hr : r ≠ 0) :
    oneE38 * oneE38 / r < uint256Limit ∧
    (buying ≠ DESOCoinIdentifierString → selling ≠ DESOCoinIdentifierString →
      CalculateScaledExchangeRateFromPriceString buying selling price
          OperationTypeASK =
        .ok (oneE38 * oneE38 / r)) ∧
    (buying ≠ DESOCoinIdentifierString → selling = DESOCoinIdentifierString →
      CalculateScaledExchangeRateFromPriceString buying selling price
          OperationTypeASK =
        if oneE38 * oneE38 / r / 10 ^ 9 = 0 then .error .underflow
        else .ok (oneE38 * oneE38 / r / 10 ^ 9)) ∧
    (buying = DESOCoinIdentifierString →
      CalculateScaledExchangeRateFromPriceString buying selling price
          OperationTypeASK =
        if oneE38 * oneE38 / r * 10 ^ 9 < uint256Limit then
          .ok (oneE38 * oneE38 / r * 10 ^ 9)
        else .error .overflow) := by
  have hfits : oneE38 * oneE38 / r < uint256Limit := by
    calc oneE38 * oneE38 / r ≤ oneE38 * oneE38 := Nat.div_le_self _ _
      _ < uint256Limit := by norm_num [oneE38, uint256Limit]
  have hfac := getDESOToDAOCoinBaseUnitsScalingFactor_eq
  refine ⟨hfits, fun hb hsell => ?_, fun hb hsell => ?_, fun hb => ?_⟩
  · simp [CalculateScaledExchangeRateFromPriceString, hparse, hr, hfits, hb,
      hsell, hfac]
  · simp [CalculateScaledExchangeRateFromPriceString, hparse, hr, hfits, hb,
      hsell, hfac]
  · simp [CalculateScaledExchangeRateFromPriceString, hparse, hr, hfits, hb,
      hfac]

/-- C2 witness: the amended theorem applied at price `"4.0"` (raw scaled
rate `4×10^38`) for a DAO-coin/DAO-coin ASK: the returned rate is the
inversion `floor(10^76 / (4×10^38))`. -/
theorem c2_ask_inversion_witness :
    CalculateScaledExchangeRateFromPriceString "B" "S" "4.0"
        OperationTypeASK =
      .ok (oneE38 * oneE38 / (4 * 10 ^ 38)) :=
  (c2_ask_inversion "B" "S" "4.0" (4 * 10 ^ 38) (by decide)
      (by decide)).2.1 (by decide) (by decide)

/-- C3: evaluation at the failing input.  A float such as `1e-16` is
formatted as the 15-decimal-place string `"0.000000000000000"`, which the
parse scales to exactly zero and returns as a success; the older
`CalculateScaledExchangeRate` (`unnamed/part_001:311-337`) has no zero
guard, so with the native coin on the buying side it returns the zero rate
`0` as a SUCCESS value instead of an Underflow-style error, and likewise
passes zero through for a DAO-coin/DAO-coin pair — while the newer
`CalculateScaledExchangeRateFromFloat` (`routes/dao_coin_exchange.go:399`)
rejects the same zero raw rate as the claim requires. -/
theorem c3_zero_rate_guard :
    CalculateScaledExchangeRateFromString "0.000000000000000" = .ok 0 ∧
      CalculateScaledExchangeRate "" "DAOCoinX" 0 = .ok 0 ∧
      CalculateScaledExchangeRate "DAOCoinX" "DAOCoinY" 0 = .ok 0 ∧
      CalculateScaledExchangeRateFromFloat "DAOCoinX" "DAOCoinY" 0 =
        .error .underflow := by
  refine ⟨by decide, by decide, by decide, by decide⟩

/-- The loop shape shared by the two bulk order-book builders: folding over
the entries, appending a successful build and keeping the accumulator
unchanged on a failed one, collects exactly the successful results in
order. -/
theorem foldl_skip_eq_filterMap
    (f : DAOCoinLimitOrderEntry → Except CalcErr DAOCoinLimitOrderEntryResponse) :
    ∀ (orders : List DAOCoinLimitOrderEntry)
      (acc : List DAOCoinLimitOrderEntryResponse),
      orders.foldl (fun rs o => appendOrderResponse rs (f o)) acc =
        acc ++ orders.filterMap (fun o => (f o).toOption)
  | [], acc => by simp
  | o :: os, acc => by
    rw [List.foldl_cons, List.filterMap_cons]
    cases h : f o with
    | error e =>
      rw [foldl_skip_eq_filterMap f os (appendOrderResponse acc (.error e))]
      simp [appendOrderResponse, Except.toOption]
    | ok r =>
      rw [foldl_skip_eq_filterMap f os (appendOrderResponse acc (.ok r))]
      simp [appendOrderResponse, Except.toOption]

/-- C8: both bulk order-book response builders return exactly the responses
of the entries that build successfully, in their original order — an entry
whose per-order response errors is skipped without affecting the others.
(The `glog` logging on the skipped entry is an I/O effect outside the
embedding.) -/
theorem c8_bulk_builders_skip_bad_entries :
    (∀ (encodeTransactorPublicKey : Nat → String) (buying selling : String)
        (orders : List DAOCoinLimitOrderEntry),
      buildDAOCoinLimitOrderResponsesFromEntriesForCoinPair
          encodeTransactorPublicKey buying selling orders =
        orders.filterMap (fun o =>
          (buildDAOCoinLimitOrderResponse
            (encodeTransactorPublicKey o.transactorPKID) buying selling
            o).toOption)) ∧
    (∀ (coinIdentifierForPKID : Nat → String) (transactor : String)
        (orders : List DAOCoinLimitOrderEntry),
      buildDAOCoinLimitOrderResponsesForTransactor coinIdentifierForPKID
          transactor orders =
        orders.filterMap (fun o =>
          (buildDAOCoinLimitOrderResponse transactor
            (coinIdentifierForPKID o.buyingDAOCoinCreatorPKID)
            (coinIdentifierForPKID o.sellingDAOCoinCreatorPKID)
            o).toOption)) := by
  constructor
  · intro enc buying selling orders
    simpa [buildDAOCoinLimitOrderResponsesFromEntriesForCoinPair] using
      foldl_skip_eq_filterMap
        (fun o => buildDAOCoinLimitOrderResponse (enc o.transactorPKID)
          buying selling o)
        orders []
  · intro lookup transactor orders
    simpa [buildDAOCoinLimitOrderResponsesForTransactor] using
      foldl_skip_eq_filterMap
        (fun o => buildDAOCoinLimitOrderResponse transactor
          (lookup o.buyingDAOCoinCreatorPKID)
          (lookup o.sellingDAOCoinCreatorPKID) o)
        orders []

/-- C7 witness: the round-trip theorem applied at the pair
(`"DESO"`, `"X"`) and raw rate `r = 3`: the write path stores `3×10^9` and
the read-path adjustment recovers `3`. -/
theorem c7_denomination_round_trip_witness :
    readPathDenominationAdjustment DESOCoinIdentifierString "X"
      (3 * 10 ^ 9) = 3 :=
  (c7_denomination_round_trip "X" 3 (by decide)).1 (3 * 10 ^ 9) (by decide)
